import Mathlib

set_option maxRecDepth 8000

/- Shallow embedding of src/ga.service.ts from the ga4-telegram-toolkit
repository.  Strings of the report layer are modelled as Lean String; the
JWT / base64url layer, which operates on Node Buffers, is modelled over
UTF-8 byte lists (List Nat, every byte < 256; the credential fields that
reach the JWT are assumed ASCII, which makes the char-wise encoding agree
with UTF-8).  HTTP and crypto effects are passed in explicitly as
Except-valued inputs, and the requests a function issues are returned as an
explicit trace. -/

-- Standard base64 alphabet, as produced by Buffer.toString('base64').
def b64Table : List Char :=
  ['A', 'B', 'C', 'D', 'E', 'F', 'G', 'H', 'I', 'J', 'K', 'L', 'M',
   'N', 'O', 'P', 'Q', 'R', 'S', 'T', 'U', 'V', 'W', 'X', 'Y', 'Z',
   'a', 'b', 'c', 'd', 'e', 'f', 'g', 'h', 'i', 'j', 'k', 'l', 'm',
   'n', 'o', 'p', 'q', 'r', 's', 't', 'u', 'v', 'w', 'x', 'y', 'z',
   '0', '1', '2', '3', '4', '5', '6', '7', '8', '9', '+', '/']

def b64Char (n : Nat) : Char := b64Table.getD n 'A'

def b64Val (c : Char) : Nat := b64Table.indexOf c

-- Base64-encode a byte list: three bytes to four characters, '=' padding.
def encodeB64 : List Nat → List Char
  | [] => []
  | [b1] => [b64Char (b1 / 4), b64Char (b1 % 4 * 16), '=', '=']
  | [b1, b2] =>
      [b64Char (b1 / 4), b64Char (b1 % 4 * 16 + b2 / 16), b64Char (b2 % 16 * 4), '=']
  | b1 :: b2 :: b3 :: rest =>
      b64Char (b1 / 4) :: b64Char (b1 % 4 * 16 + b2 / 16) ::
      b64Char (b2 % 16 * 4 + b3 / 64) :: b64Char (b3 % 64) :: encodeB64 rest

-- Base64-decode four characters to three bytes, honouring '=' padding.
def decodeB64 : List Char → List Nat
  | c1 :: c2 :: c3 :: c4 :: rest =>
      if c3 = '=' then [b64Val c1 * 4 + b64Val c2 / 16]
      else if c4 = '=' then
        [b64Val c1 * 4 + b64Val c2 / 16, b64Val c2 % 16 * 16 + b64Val c3 / 4]
      else
        (b64Val c1 * 4 + b64Val c2 / 16) ::
        (b64Val c2 % 16 * 16 + b64Val c3 / 4) ::
        (b64Val c3 % 4 * 64 + b64Val c4) :: decodeB64 rest
  | _ => []

-- .replace of the '+' to '-' and '/' to '_' substitutions, one character.
def toUrlChar (c : Char) : Char := if c = '+' then '-' else if c = '/' then '_' else c

def fromUrlChar (c : Char) : Char := if c = '-' then '+' else if c = '_' then '/' else c

-- .replace of the trailing '=' run (regex =+$ anchored at the end).
def stripTrailingEq (s : List Char) : List Char :=
  (s.reverse.dropWhile (fun c => c == '=')).reverse

-- Buffer.from(x).toString('base64') followed by the three .replace calls of
-- ga.service.ts lines 200-219.
def base64url (bs : List Nat) : List Char :=
  stripTrailingEq ((encodeB64 bs).map toUrlChar)

def repad (s : List Char) : List Char :=
  s ++ List.replicate ((4 - s.length % 4) % 4) '='

-- Decoding of the claim: reverse the substitution, re-pad, base64-decode.
def decodeB64url (s : List Char) : List Nat :=
  decodeB64 (repad (s.map fromUrlChar))

def ByteOk (bs : List Nat) : Prop := ∀ b ∈ bs, b < 256

instance (bs : List Nat) : Decidable (ByteOk bs) := List.decidableBAll _ bs

def UrlCharsOk (s : List Char) : Prop := ∀ c ∈ s, c ≠ '+' ∧ c ≠ '/' ∧ c ≠ '='

instance (s : List Char) : Decidable (UrlCharsOk s) := List.decidableBAll _ s

-- The padding the encoder appends, as a function of the input length.
def padFor (bs : List Nat) : List Char :=
  if bs.length % 3 = 1 then ['=', '=']
  else if bs.length % 3 = 2 then ['='] else []

theorem b64Val_b64Char_fin : ∀ n : Fin 64, b64Val (b64Char n.val) = n.val := by decide

theorem b64Val_b64Char (n : Nat) (h : n < 64) : b64Val (b64Char n) = n :=
  b64Val_b64Char_fin ⟨n, h⟩

theorem b64Char_facts_fin :
    ∀ n : Fin 64,
      b64Char n.val ≠ '=' ∧ toUrlChar (b64Char n.val) ≠ '+' ∧
      toUrlChar (b64Char n.val) ≠ '/' ∧ toUrlChar (b64Char n.val) ≠ '=' ∧
      fromUrlChar (toUrlChar (b64Char n.val)) = b64Char n.val := by decide

theorem b64Char_ne_pad (n : Nat) (h : n < 64) : b64Char n ≠ '=' :=
  (b64Char_facts_fin ⟨n, h⟩).1

theorem byteOk_tail {b : Nat} {bs : List Nat} (h : ByteOk (b :: bs)) : ByteOk bs :=
  fun x hx => h x (List.mem_cons_of_mem _ hx)

theorem decode_encode : ∀ bs : List Nat, ByteOk bs → decodeB64 (encodeB64 bs) = bs
  | [], _ => by rfl
  | [b1], h => by
      have hb1 : b1 < 256 := h b1 (by simp)
      have e1 : b64Val (b64Char (b1 / 4)) = b1 / 4 := b64Val_b64Char _ (by omega)
      have e2 : b64Val (b64Char (b1 % 4 * 16)) = b1 % 4 * 16 := b64Val_b64Char _ (by omega)
      simp [encodeB64, decodeB64, e1, e2]
      omega
  | [b1, b2], h => by
      have hb1 : b1 < 256 := h b1 (by simp)
      have hb2 : b2 < 256 := h b2 (by simp)
      have e1 : b64Val (b64Char (b1 / 4)) = b1 / 4 := b64Val_b64Char _ (by omega)
      have e2 : b64Val (b64Char (b1 % 4 * 16 + b2 / 16)) = b1 % 4 * 16 + b2 / 16 :=
        b64Val_b64Char _ (by omega)
      have e3 : b64Val (b64Char (b2 % 16 * 4)) = b2 % 16 * 4 := b64Val_b64Char _ (by omega)
      have n3 : b64Char (b2 % 16 * 4) ≠ '=' := b64Char_ne_pad _ (by omega)
      simp [encodeB64, decodeB64, n3, e1, e2, e3]
      omega
  | b1 :: b2 :: b3 :: rest, h => by
      have hb1 : b1 < 256 := h b1 (by simp)
      have hb2 : b2 < 256 := h b2 (by simp)
      have hb3 : b3 < 256 := h b3 (by simp)
      have hrest : ByteOk rest := fun x hx => h x (by simp [hx])
      have ih := decode_encode rest hrest
      have e1 : b64Val (b64Char (b1 / 4)) = b1 / 4 := b64Val_b64Char _ (by omega)
      have e2 : b64Val (b64Char (b1 % 4 * 16 + b2 / 16)) = b1 % 4 * 16 + b2 / 16 :=
        b64Val_b64Char _ (by omega)
      have e3 : b64Val (b64Char (b2 % 16 * 4 + b3 / 64)) = b2 % 16 * 4 + b3 / 64 :=
        b64Val_b64Char _ (by omega)
      have e4 : b64Val (b64Char (b3 % 64)) = b3 % 64 := b64Val_b64Char _ (by omega)
      have n3 : b64Char (b2 % 16 * 4 + b3 / 64) ≠ '=' := b64Char_ne_pad _ (by omega)
      have n4 : b64Char (b3 % 64) ≠ '=' := b64Char_ne_pad _ (by omega)
      simp [encodeB64, decodeB64, n3, n4, e1, e2, e3, e4, ih]
      omega

theorem padFor_mem (bs : List Nat) : ∀ c ∈ padFor bs, c = '=' := by
  intro c hc
  unfold padFor at hc
  split at hc
  · simpa using hc
  · split at hc
    · simpa using hc
    · simp at hc

theorem padFor_len (bs : List Nat) : (padFor bs).length ≤ 2 := by
  unfold padFor
  split
  · simp
  · split <;> simp

theorem padFor_cons3 (b1 b2 b3 : Nat) (rest : List Nat) :
    padFor (b1 :: b2 :: b3 :: rest) = padFor rest := by
  unfold padFor
  have h : (b1 :: b2 :: b3 :: rest).length % 3 = rest.length % 3 := by
    simp [List.length_cons]
    omega
  rw [h]

theorem enc_split :
    ∀ bs : List Nat, ByteOk bs →
      ∃ body : List Char,
        encodeB64 bs = body ++ padFor bs ∧
        (∀ c ∈ body, ∃ n : Nat, n < 64 ∧ c = b64Char n) ∧
        (body.length + (padFor bs).length) % 4 = 0
  | [], _ => ⟨[], by simp [encodeB64, padFor]⟩
  | [b1], h => by
      have hb1 : b1 < 256 := h b1 (by simp)
      refine ⟨[b64Char (b1 / 4), b64Char (b1 % 4 * 16)], ?_, ?_, ?_⟩
      · simp [encodeB64, padFor]
      · intro c hc
        simp only [List.mem_cons, List.not_mem_nil, or_false] at hc
        rcases hc with rfl | rfl
        · exact ⟨b1 / 4, by omega, rfl⟩
        · exact ⟨b1 % 4 * 16, by omega, rfl⟩
      · simp [padFor]
  | [b1, b2], h => by
      have hb1 : b1 < 256 := h b1 (by simp)
      have hb2 : b2 < 256 := h b2 (by simp)
      refine ⟨[b64Char (b1 / 4), b64Char (b1 % 4 * 16 + b2 / 16), b64Char (b2 % 16 * 4)],
        ?_, ?_, ?_⟩
      · simp [encodeB64, padFor]
      · intro c hc
        simp only [List.mem_cons, List.not_mem_nil, or_false] at hc
        rcases hc with rfl | rfl | rfl
        · exact ⟨b1 / 4, by omega, rfl⟩
        · exact ⟨b1 % 4 * 16 + b2 / 16, by omega, rfl⟩
        · exact ⟨b2 % 16 * 4, by omega, rfl⟩
      · simp [padFor]
  | b1 :: b2 :: b3 :: rest, h => by
      have hb1 : b1 < 256 := h b1 (by simp)
      have hb2 : b2 < 256 := h b2 (by simp)
      have hb3 : b3 < 256 := h b3 (by simp)
      have hrest : ByteOk rest := fun x hx => h x (by simp [hx])
      obtain ⟨body, hbody, hmem, hlen⟩ := enc_split rest hrest
      refine ⟨b64Char (b1 / 4) :: b64Char (b1 % 4 * 16 + b2 / 16) ::
        b64Char (b2 % 16 * 4 + b3 / 64) :: b64Char (b3 % 64) :: body, ?_, ?_, ?_⟩
      · rw [padFor_cons3]
        simp [encodeB64, hbody]
      · intro c hc
        simp only [List.mem_cons] at hc
        rcases hc with rfl | rfl | rfl | rfl | hc
        · exact ⟨b1 / 4, by omega, rfl⟩
        · exact ⟨b1 % 4 * 16 + b2 / 16, by omega, rfl⟩
        · exact ⟨b2 % 16 * 4 + b3 / 64, by omega, rfl⟩
        · exact ⟨b3 % 64, by omega, rfl⟩
        · exact hmem c hc
      · rw [padFor_cons3]
        simp only [List.length_cons]
        omega

theorem dropWhile_append_of_forall {α : Type} (p : α → Bool) :
    ∀ (A B : List α), (∀ a ∈ A, p a = true) →
      List.dropWhile p (A ++ B) = List.dropWhile p B := by
  intro A
  induction A with
  | nil => intro B _; rfl
  | cons a A ih =>
      intro B h
      have ha : p a = true := h a (by simp)
      simp only [List.cons_append, List.dropWhile, ha]
      exact ih B (fun x hx => h x (by simp [hx]))

theorem dropWhile_eq_self_of_forall {α : Type} (p : α → Bool) (l : List α)
    (h : ∀ a ∈ l, p a = false) : List.dropWhile p l = l := by
  cases l with
  | nil => rfl
  | cons a l =>
      have ha : p a = false := h a (by simp)
      simp [List.dropWhile, ha]

theorem strip_append (X pad : List Char)
    (hX : ∀ c ∈ X, c ≠ '=') (hp : ∀ c ∈ pad, c = '=') :
    stripTrailingEq (X ++ pad) = X := by
  unfold stripTrailingEq
  rw [List.reverse_append]
  rw [dropWhile_append_of_forall _ pad.reverse X.reverse
    (fun a ha => by
      have : a = '=' := hp a (List.mem_reverse.mp ha)
      simp [this])]
  rw [dropWhile_eq_self_of_forall _ X.reverse
    (fun a ha => by
      have : a ≠ '=' := hX a (List.mem_reverse.mp ha)
      simp [this])]
  exact List.reverse_reverse X

theorem map_id_of_forall {α : Type} (f : α → α) :
    ∀ l : List α, (∀ a ∈ l, f a = a) → l.map f = l := by
  intro l
  induction l with
  | nil => intro _; rfl
  | cons a l ih =>
      intro h
      simp only [List.map_cons, h a (by simp)]
      rw [ih (fun x hx => h x (by simp [hx]))]

-- The encoded-then-substituted string is exactly the alphabet body of the
-- plain base64 encoding with each character url-substituted.
theorem base64url_body (bs : List Nat) (h : ByteOk bs) :
    ∃ body : List Char,
      encodeB64 bs = body ++ padFor bs ∧
      (∀ c ∈ body, ∃ n : Nat, n < 64 ∧ c = b64Char n) ∧
      (body.length + (padFor bs).length) % 4 = 0 ∧
      base64url bs = body.map toUrlChar := by
  obtain ⟨body, hbody, hmem, hlen⟩ := enc_split bs h
  refine ⟨body, hbody, hmem, hlen, ?_⟩
  unfold base64url
  rw [hbody, List.map_append]
  rw [map_id_of_forall toUrlChar (padFor bs)
    (fun c hc => by rw [padFor_mem bs c hc]; rfl)]
  apply strip_append
  · intro c hc
    obtain ⟨x, hx, rfl⟩ := List.mem_map.mp hc
    obtain ⟨n, hn, rfl⟩ := hmem x hx
    exact (b64Char_facts_fin ⟨n, hn⟩).2.2.2.1
  · exact padFor_mem bs

theorem base64url_urlCharsOk (bs : List Nat) (h : ByteOk bs) :
    UrlCharsOk (base64url bs) := by
  obtain ⟨body, _, hmem, _, hurl⟩ := base64url_body bs h
  intro c hc
  rw [hurl] at hc
  obtain ⟨x, hx, rfl⟩ := List.mem_map.mp hc
  obtain ⟨n, hn, rfl⟩ := hmem x hx
  have hf := b64Char_facts_fin ⟨n, hn⟩
  exact ⟨hf.2.1, hf.2.2.1, hf.2.2.2.1⟩

theorem base64url_roundTrip (bs : List Nat) (h : ByteOk bs) :
    decodeB64url (base64url bs) = bs := by
  obtain ⟨body, hbody, hmem, hlen, hurl⟩ := base64url_body bs h
  rw [hurl]
  unfold decodeB64url
  rw [List.map_map]
  have hback : body.map (fromUrlChar ∘ toUrlChar) = body := by
    apply map_id_of_forall
    intro a ha
    obtain ⟨n, hn, rfl⟩ := hmem a ha
    exact (b64Char_facts_fin ⟨n, hn⟩).2.2.2.2
  rw [hback]
  have hpadrep : padFor bs = List.replicate (padFor bs).length '=' :=
    List.eq_replicate_length.mpr (padFor_mem bs)
  have hlen2 : (4 - body.length % 4) % 4 = (padFor bs).length := by
    have := padFor_len bs
    omega
  have hrp : repad body = body ++ padFor bs := by
    unfold repad
    rw [hlen2, ← hpadrep]
  rw [hrp, ← hbody]
  exact decode_encode bs h

/- JSON serialization at the byte level, mirroring JSON.stringify on the
fixed-shape header and claims objects of getAccessToken (insertion order of
the object literals, no whitespace). -/

def hexLow (r : Nat) : Nat := if r < 10 then 48 + r else 87 + r

-- JSON.stringify escaping of one byte inside a string literal.  Control
-- characters below 0x20 in the \u branch have high hex digit 0 or 1, which
-- serializes as the byte 48 + b / 16.
def jsonEscapeByte (b : Nat) : List Nat :=
  if b = 34 then [92, 34]
  else if b = 92 then [92, 92]
  else if b = 8 then [92, 98]
  else if b = 9 then [92, 116]
  else if b = 10 then [92, 110]
  else if b = 12 then [92, 102]
  else if b = 13 then [92, 114]
  else if b < 32 then [92, 117, 48, 48, 48 + b / 16, hexLow (b % 16)]
  else [b]

def jsonEscape : List Nat → List Nat
  | [] => []
  | b :: rest => jsonEscapeByte b ++ jsonEscape rest

-- A JSON string literal: quote, escaped bytes, quote.
def jsonStr (bs : List Nat) : List Nat := 34 :: (jsonEscape bs ++ [34])

-- Decimal serialization of a JSON number (JSON.stringify on a Nat).
def natToDecAux (n : Nat) (acc : List Nat) : List Nat :=
  if h : n < 10 then (48 + n) :: acc
  else natToDecAux (n / 10) ((48 + n % 10) :: acc)
termination_by n
decreasing_by exact Nat.div_lt_self (by omega) (by omega)

def natToDec (n : Nat) : List Nat := natToDecAux n []

-- UTF-8 bytes of a Lean string; agrees with Buffer.from(s) for ASCII input.
def strBytes (s : String) : List Nat := s.toList.map Char.toNat

def AsciiStr (s : String) : Prop := ∀ c ∈ s.toList, c.toNat < 128

instance (s : String) : Decidable (AsciiStr s) := List.decidableBAll _ s.toList

theorem byteOk_append {a b : List Nat} (ha : ByteOk a) (hb : ByteOk b) :
    ByteOk (a ++ b) := by
  intro x hx
  rcases List.mem_append.mp hx with h | h
  · exact ha x h
  · exact hb x h

theorem byteOk_jsonEscapeByte_fin : ∀ b : Fin 256, ∀ x ∈ jsonEscapeByte b.val, x < 256 := by
  decide

theorem byteOk_jsonEscape {bs : List Nat} (h : ByteOk bs) : ByteOk (jsonEscape bs) := by
  induction bs with
  | nil => intro x hx; simp [jsonEscape] at hx
  | cons b rest ih =>
      have hb : b < 256 := h b (by simp)
      have hr : ByteOk rest := byteOk_tail h
      intro x hx
      simp only [jsonEscape] at hx
      rcases List.mem_append.mp hx with h1 | h1
      · exact byteOk_jsonEscapeByte_fin ⟨b, hb⟩ x h1
      · exact ih hr x h1

theorem byteOk_jsonStr {bs : List Nat} (h : ByteOk bs) : ByteOk (jsonStr bs) := by
  intro x hx
  simp only [jsonStr, List.mem_cons] at hx
  rcases hx with rfl | hx
  · omega
  · rcases List.mem_append.mp hx with h1 | h1
    · exact byteOk_jsonEscape h x h1
    · simp at h1; omega

theorem byteOk_natToDecAux :
    ∀ n : Nat, ∀ acc : List Nat, ByteOk acc → ByteOk (natToDecAux n acc) := by
  intro n
  induction n using Nat.strong_induction_on with
  | _ n ih =>
      intro acc hacc
      unfold natToDecAux
      split
      · intro x hx
        rcases List.mem_cons.mp hx with rfl | hx
        · omega
        · exact hacc x hx
      · refine ih (n / 10) (Nat.div_lt_self (by omega) (by omega)) _ ?_
        intro x hx
        rcases List.mem_cons.mp hx with rfl | hx
        · omega
        · exact hacc x hx

theorem byteOk_natToDec (n : Nat) : ByteOk (natToDec n) :=
  byteOk_natToDecAux n [] (fun x hx => by simp at hx)

theorem byteOk_strBytes {s : String} (h : AsciiStr s) : ByteOk (strBytes s) := by
  intro x hx
  obtain ⟨c, hc, rfl⟩ := List.mem_map.mp hx
  have := h c hc
  omega

/- Credential model (ga.service.ts lines 62-107 and 135-169).  The merged
key has the five fixed fields always present (they are written before the
object spread, so they are defaults) and the six per-deployment fields as
Options, because a JSON credential file may omit them.  RawKey is the parse
of the credential file: every field optional. -/

structure GoogleServiceAccountKeyInput where
  project_id : String
  private_key_id : String
  private_key : String
  client_email : String
  client_id : String
  client_x509_cert_url : String
deriving DecidableEq

structure RawKey where
  type : Option String
  project_id : Option String
  private_key_id : Option String
  private_key : Option String
  client_email : Option String
  client_id : Option String
  auth_uri : Option String
  token_uri : Option String
  auth_provider_x509_cert_url : Option String
  client_x509_cert_url : Option String
  universe_domain : Option String
deriving DecidableEq

structure MergedKey where
  type : String
  auth_uri : String
  auth_provider_x509_cert_url : String
  token_uri : String
  universe_domain : String
  project_id : Option String
  private_key_id : Option String
  private_key : Option String
  client_email : Option String
  client_id : Option String
  client_x509_cert_url : Option String
deriving DecidableEq

-- The object literal of lines 153-160: fixed constants first, then
-- ...rawKey.  A later spread overrides earlier fields, so a field present
-- in the file wins and the constant is only a default.
def mergeFromRaw (raw : RawKey) : MergedKey :=
  { type := raw.type.getD ("service_account"),
    auth_uri := raw.auth_uri.getD ("https://accounts.google.com/o/oauth2/auth"),
    auth_provider_x509_cert_url :=
      raw.auth_provider_x509_cert_url.getD ("https://www.googleapis.com/oauth2/v1/certs"),
    token_uri := raw.token_uri.getD ("https://oauth2.googleapis.com/token"),
    universe_domain := raw.universe_domain.getD ("googleapis.com"),
    project_id := raw.project_id,
    private_key_id := raw.private_key_id,
    private_key := raw.private_key,
    client_email := raw.client_email,
    client_id := raw.client_id,
    client_x509_cert_url := raw.client_x509_cert_url }

-- The object literal of lines 140-147: the in-memory object has exactly the
-- six per-deployment fields (its TypeScript interface), so the spread can
-- never override a fixed field.
def mergeFromObj (obj : GoogleServiceAccountKeyInput) : MergedKey :=
  { type := "service_account",
    auth_uri := "https://accounts.google.com/o/oauth2/auth",
    auth_provider_x509_cert_url := "https://www.googleapis.com/oauth2/v1/certs",
    token_uri := "https://oauth2.googleapis.com/token",
    universe_domain := "googleapis.com",
    project_id := some obj.project_id,
    private_key_id := some obj.private_key_id,
    private_key := some obj.private_key,
    client_email := some obj.client_email,
    client_id := some obj.client_id,
    client_x509_cert_url := some obj.client_x509_cert_url }

-- loadServiceAccountKey (lines 135-169): the in-memory object takes
-- precedence; otherwise the file is read and parsed (an Except input models
-- readFileSync/JSON.parse, which may throw); any failure is wrapped into
-- the single generic load error.
def loadServiceAccountKey (serviceAccountObj : Option GoogleServiceAccountKeyInput)
    (fileContent : Except String RawKey) : Except String MergedKey :=
  match serviceAccountObj with
  | some obj => Except.ok (mergeFromObj obj)
  | none =>
      match fileContent with
      | Except.ok raw => Except.ok (mergeFromRaw raw)
      | Except.error _ =>
          Except.error ("Failed to load Google service account key file or object")

/- JWT construction (getAccessToken, lines 174-239). -/

-- JSON.stringify of the header object literal {alg, typ, kid} in insertion
-- order; a kid read from an absent private_key_id field (undefined in JS)
-- is omitted by JSON.stringify.
def jsonHeader (kid : Option String) : List Nat :=
  strBytes ("\x7b\"alg\":\"RS256\",\"typ\":\"JWT\"") ++
  (match kid with
   | none => []
   | some k => strBytes (",\"kid\":") ++ jsonStr (strBytes k)) ++
  strBytes ("\x7d")

-- JSON.stringify of the claims object {iss, sub, aud, iat, exp, scope} in
-- insertion order, with exp = iat + 3600 computed before serialization.
def jsonClaims (email : Option String) (iat : Nat) : List Nat :=
  strBytes ("\x7b") ++
  (match email with
   | none => []
   | some e =>
       strBytes ("\"iss\":") ++ jsonStr (strBytes e) ++
       strBytes (",\"sub\":") ++ jsonStr (strBytes e) ++ strBytes (",")) ++
  strBytes ("\"aud\":\"https://oauth2.googleapis.com/token\",\"iat\":") ++
  natToDec iat ++
  strBytes (",\"exp\":") ++ natToDec (iat + 3600) ++
  strBytes (",\"scope\":\"https://www.googleapis.com/auth/analytics.readonly\"\x7d")

-- encodedHeader + "." + encodedPayload (line 211).
def signingInputFor (key : MergedKey) (now : Nat) : List Char :=
  base64url (jsonHeader key.private_key_id) ++ ['.'] ++
  base64url (jsonClaims key.client_email now)

structure TokenRequest where
  grant_type : String
  assertion : List Char
deriving DecidableEq

structure TokenResponse where
  access_token : String
deriving DecidableEq

structure HttpError where
  status : Nat
deriving DecidableEq

-- The POST body of lines 225-232, with the complete JWT of line 222.
def tokenRequestFor (key : MergedKey) (now : Nat) (sigBytes : List Nat) : TokenRequest :=
  { grant_type := "urn:ietf:params:oauth:grant-type:jwt-bearer",
    assertion := signingInputFor key now ++ ['.'] ++ base64url sigBytes }

def tokenErrorMessage : String := "Failed to generate Google Analytics access token"

-- getAccessToken.  Credential loading, RSA signing and the HTTP POST are
-- explicit inputs; the second component of the result is the trace of token
-- endpoint requests actually issued (the source posts at most once, with no
-- retry).  Every failure inside the try block is caught and wrapped into
-- the single TokenIssuanceError message of line 237.
def getAccessToken (load : Except String MergedKey) (now : Nat)
    (sign : MergedKey → List Char → Except String (List Nat))
    (post : TokenRequest → Except HttpError TokenResponse) :
    Except String String × List TokenRequest :=
  match load with
  | Except.error _ => (Except.error tokenErrorMessage, [])
  | Except.ok key =>
      match sign key (signingInputFor key now) with
      | Except.error _ => (Except.error tokenErrorMessage, [])
      | Except.ok sigBytes =>
          match post (tokenRequestFor key now sigBytes) with
          | Except.error _ => (Except.error tokenErrorMessage, [tokenRequestFor key now sigBytes])
          | Except.ok resp => (Except.ok resp.access_token, [tokenRequestFor key now sigBytes])

/- Report layer (GA4Response processing).  Option models possibly-absent
JSON fields; jsOr models the JavaScript pattern (x?.field || defaultValue),
where both undefined and the empty string are falsy. -/

structure GA4DimensionValue where
  value : Option String
deriving DecidableEq

structure GA4MetricValue where
  value : Option String
deriving DecidableEq

structure GA4Row where
  dimensionValues : List GA4DimensionValue
  metricValues : List GA4MetricValue
deriving DecidableEq

structure GA4Header where
  name : String
deriving DecidableEq

structure GA4Response where
  rows : Option (List GA4Row)
  dimensionHeaders : List GA4Header
  metricHeaders : List GA4Header
deriving DecidableEq

structure CountryUserReport where
  country : String
  totalUsers : String
  newUsers : String
  sessions : String
deriving DecidableEq

structure ReportResult where
  headers : List String
  data : List CountryUserReport
  message : Option String
deriving DecidableEq

-- JavaScript (o || d) for an optional string o: undefined and '' give d.
def jsOr (o : Option String) (d : String) : String :=
  match o with
  | none => d
  | some s => if s = "" then d else s

-- row.dimensionValues[i]?.value
def dimAt (row : GA4Row) (i : Nat) : Option String :=
  (row.dimensionValues.get? i).bind GA4DimensionValue.value

-- row.metricValues[i]?.value
def metAt (row : GA4Row) (i : Nat) : Option String :=
  (row.metricValues.get? i).bind GA4MetricValue.value

/- One definition per convenience operation: the row mapper (the arrow
function inside .map) and the full response-to-ReportResult normalization.
Each mirrors the literal headers, message and field wiring of its method. -/

-- getUsersByCountry (lines 314-346)
def getUsersByCountryRow (row : GA4Row) : CountryUserReport :=
  { country := jsOr (dimAt row 0) ("Unknown"),
    totalUsers := jsOr (metAt row 0) ("0"),
    newUsers := jsOr (metAt row 1) ("0"),
    sessions := jsOr (metAt row 2) ("0") }

def getUsersByCountryResult (report : GA4Response) : ReportResult :=
  match report.rows with
  | none =>
      { headers := ["Country", "Total Users", "New Users", "Sessions"],
        data := [], message := some ("No data available") }
  | some [] =>
      { headers := ["Country", "Total Users", "New Users", "Sessions"],
        data := [], message := some ("No data available") }
  | some rs =>
      { headers := ["Country", "Total Users", "New Users", "Sessions"],
        data := rs.map getUsersByCountryRow, message := none }

-- getTopConversionEvents (lines 407-432)
def getTopConversionEventsRow (row : GA4Row) : CountryUserReport :=
  { country := jsOr (dimAt row 0) ("Unknown"),
    totalUsers := jsOr (metAt row 0) ("0"),
    newUsers := "0",
    sessions := "0" }

def getTopConversionEventsResult (report : GA4Response) : ReportResult :=
  match report.rows with
  | none =>
      { headers := ["Event Name", "Conversions"],
        data := [], message := some ("No conversion events data available") }
  | some [] =>
      { headers := ["Event Name", "Conversions"],
        data := [], message := some ("No conversion events data available") }
  | some rs =>
      { headers := ["Event Name", "Conversions"],
        data := rs.map getTopConversionEventsRow, message := none }

-- getConversionsBySourceMedium (lines 437-462)
def getConversionsBySourceMediumRow (row : GA4Row) : CountryUserReport :=
  { country := jsOr (dimAt row 0) ("Unknown"),
    totalUsers := jsOr (metAt row 0) ("0"),
    newUsers := "0",
    sessions := "0" }

def getConversionsBySourceMediumResult (report : GA4Response) : ReportResult :=
  match report.rows with
  | none =>
      { headers := ["Source/Medium", "Conversions"],
        data := [], message := some ("No source/medium conversion data available") }
  | some [] =>
      { headers := ["Source/Medium", "Conversions"],
        data := [], message := some ("No source/medium conversion data available") }
  | some rs =>
      { headers := ["Source/Medium", "Conversions"],
        data := rs.map getConversionsBySourceMediumRow, message := none }

-- getConversionsByDevice (lines 467-492)
def getConversionsByDeviceRow (row : GA4Row) : CountryUserReport :=
  { country := jsOr (dimAt row 0) ("Unknown"),
    totalUsers := jsOr (metAt row 0) ("0"),
    newUsers := "0",
    sessions := "0" }

def getConversionsByDeviceResult (report : GA4Response) : ReportResult :=
  match report.rows with
  | none =>
      { headers := ["Device Category", "Conversions"],
        data := [], message := some ("No device conversion data available") }
  | some [] =>
      { headers := ["Device Category", "Conversions"],
        data := [], message := some ("No device conversion data available") }
  | some rs =>
      { headers := ["Device Category", "Conversions"],
        data := rs.map getConversionsByDeviceRow, message := none }

-- getPopularPagesWithEngagement (lines 499-527)
def getPopularPagesWithEngagementRow (row : GA4Row) : CountryUserReport :=
  { country := jsOr (dimAt row 0) ("Unknown"),
    totalUsers := jsOr (metAt row 0) ("0"),
    newUsers := jsOr (metAt row 1) ("0"),
    sessions := "0" }

def getPopularPagesWithEngagementResult (report : GA4Response) : ReportResult :=
  match report.rows with
  | none =>
      { headers := ["Page Path", "Page Views", "Engagement Duration (s)"],
        data := [], message := some ("No page engagement data available") }
  | some [] =>
      { headers := ["Page Path", "Page Views", "Engagement Duration (s)"],
        data := [], message := some ("No page engagement data available") }
  | some rs =>
      { headers := ["Page Path", "Page Views", "Engagement Duration (s)"],
        data := rs.map getPopularPagesWithEngagementRow, message := none }

-- getUserJourneyPaths (lines 532-560): two dimensions, one metric.
def getUserJourneyPathsRow (row : GA4Row) : CountryUserReport :=
  { country := jsOr (dimAt row 0) ("Unknown"),
    totalUsers := jsOr (dimAt row 1) ("Unknown"),
    newUsers := jsOr (metAt row 0) ("0"),
    sessions := "0" }

def getUserJourneyPathsResult (report : GA4Response) : ReportResult :=
  match report.rows with
  | none =>
      { headers := ["From Page", "To Page", "Page Views"],
        data := [], message := some ("No user journey data available") }
  | some [] =>
      { headers := ["From Page", "To Page", "Page Views"],
        data := [], message := some ("No user journey data available") }
  | some rs =>
      { headers := ["From Page", "To Page", "Page Views"],
        data := rs.map getUserJourneyPathsRow, message := none }

-- getTopInteractionEvents (lines 565-599)
def getTopInteractionEventsRow (row : GA4Row) : CountryUserReport :=
  { country := jsOr (dimAt row 0) ("Unknown"),
    totalUsers := jsOr (metAt row 0) ("0"),
    newUsers := "0",
    sessions := "0" }

def getTopInteractionEventsResult (report : GA4Response) : ReportResult :=
  match report.rows with
  | none =>
      { headers := ["Event Name", "Event Count"],
        data := [], message := some ("No interaction events data available") }
  | some [] =>
      { headers := ["Event Name", "Event Count"],
        data := [], message := some ("No interaction events data available") }
  | some rs =>
      { headers := ["Event Name", "Event Count"],
        data := rs.map getTopInteractionEventsRow, message := none }

-- getSessionsByDeviceCategory (lines 606-631)
def getSessionsByDeviceCategoryRow (row : GA4Row) : CountryUserReport :=
  { country := jsOr (dimAt row 0) ("Unknown"),
    totalUsers := jsOr (metAt row 0) ("0"),
    newUsers := "0",
    sessions := "0" }

def getSessionsByDeviceCategoryResult (report : GA4Response) : ReportResult :=
  match report.rows with
  | none =>
      { headers := ["Device Category", "Sessions"],
        data := [], message := some ("No device session data available") }
  | some [] =>
      { headers := ["Device Category", "Sessions"],
        data := [], message := some ("No device session data available") }
  | some rs =>
      { headers := ["Device Category", "Sessions"],
        data := rs.map getSessionsByDeviceCategoryRow, message := none }

-- getSessionsByDefaultChannelGroup (lines 636-661)
def getSessionsByDefaultChannelGroupRow (row : GA4Row) : CountryUserReport :=
  { country := jsOr (dimAt row 0) ("Unknown"),
    totalUsers := jsOr (metAt row 0) ("0"),
    newUsers := "0",
    sessions := "0" }

def getSessionsByDefaultChannelGroupResult (report : GA4Response) : ReportResult :=
  match report.rows with
  | none =>
      { headers := ["Default Channel Group", "Sessions"],
        data := [], message := some ("No channel group data available") }
  | some [] =>
      { headers := ["Default Channel Group", "Sessions"],
        data := [], message := some ("No channel group data available") }
  | some rs =>
      { headers := ["Default Channel Group", "Sessions"],
        data := rs.map getSessionsByDefaultChannelGroupRow, message := none }

-- compareOrganicVsPaid (lines 666-697)
def compareOrganicVsPaidRow (row : GA4Row) : CountryUserReport :=
  { country := jsOr (dimAt row 0) ("Unknown"),
    totalUsers := jsOr (metAt row 0) ("0"),
    newUsers := "0",
    sessions := "0" }

def compareOrganicVsPaidResult (report : GA4Response) : ReportResult :=
  match report.rows with
  | none =>
      { headers := ["Medium", "Sessions"],
        data := [], message := some ("No organic vs paid data available") }
  | some [] =>
      { headers := ["Medium", "Sessions"],
        data := [], message := some ("No organic vs paid data available") }
  | some rs =>
      { headers := ["Medium", "Sessions"],
        data := rs.map compareOrganicVsPaidRow, message := none }

-- getUsersByCity (lines 704-729)
def getUsersByCityRow (row : GA4Row) : CountryUserReport :=
  { country := jsOr (dimAt row 0) ("Unknown"),
    totalUsers := jsOr (metAt row 0) ("0"),
    newUsers := "0",
    sessions := "0" }

def getUsersByCityResult (report : GA4Response) : ReportResult :=
  match report.rows with
  | none =>
      { headers := ["City", "Active Users"],
        data := [], message := some ("No city data available") }
  | some [] =>
      { headers := ["City", "Active Users"],
        data := [], message := some ("No city data available") }
  | some rs =>
      { headers := ["City", "Active Users"],
        data := rs.map getUsersByCityRow, message := none }

-- getUsersByAgeBracket (lines 734-759)
def getUsersByAgeBracketRow (row : GA4Row) : CountryUserReport :=
  { country := jsOr (dimAt row 0) ("Unknown"),
    totalUsers := jsOr (metAt row 0) ("0"),
    newUsers := "0",
    sessions := "0" }

def getUsersByAgeBracketResult (report : GA4Response) : ReportResult :=
  match report.rows with
  | none =>
      { headers := ["Age Bracket", "Active Users"],
        data := [], message := some ("No age bracket data available") }
  | some [] =>
      { headers := ["Age Bracket", "Active Users"],
        data := [], message := some ("No age bracket data available") }
  | some rs =>
      { headers := ["Age Bracket", "Active Users"],
        data := rs.map getUsersByAgeBracketRow, message := none }

-- report.rows && report.rows[0]?.metricValues[i]?.value of lines 775-776.
def firstRowMetric (report : GA4Response) (i : Nat) : Option String :=
  report.rows.bind (fun rs => (rs.get? 0).bind (fun row => metAt row i))

-- compareTodayVsYesterday (lines 766-785): no empty-rows branch; it always
-- returns the two fixed rows and never sets a message.
def compareTodayVsYesterdayResult (metric : String) (report : GA4Response) : ReportResult :=
  { headers := ["Period", metric],
    data :=
      [{ country := "Today", totalUsers := jsOr (firstRowMetric report 0) ("0"),
         newUsers := "0", sessions := "0" },
       { country := "Yesterday", totalUsers := jsOr (firstRowMetric report 1) ("0"),
         newUsers := "0", sessions := "0" }],
    message := none }

-- compareThisWeekVsLastWeek (lines 790-818)
def compareThisWeekVsLastWeekRow (row : GA4Row) : CountryUserReport :=
  { country := jsOr (dimAt row 0) ("Unknown"),
    totalUsers := jsOr (metAt row 0) ("0"),
    newUsers := jsOr (metAt row 1) ("0"),
    sessions := "0" }

def compareThisWeekVsLastWeekResult (dimension : String) (report : GA4Response) :
    ReportResult :=
  match report.rows with
  | none =>
      { headers := [dimension, "Last Week", "This Week"],
        data := [], message := some ("No comparison data available") }
  | some [] =>
      { headers := [dimension, "Last Week", "This Week"],
        data := [], message := some ("No comparison data available") }
  | some rs =>
      { headers := [dimension, "Last Week", "This Week"],
        data := rs.map compareThisWeekVsLastWeekRow, message := none }

/- getReport (lines 249-308) and getDetailedReport (lines 358-400).  The
token fetch and the HTTP POST are explicit Except inputs; every failure in
the try block (including a failed token fetch) is caught and replaced by
the single generic error message of the respective catch block.  The
status-specific branches at lines 298-304 only log and do not change the
thrown error. -/

def reportErrorMessage : String := "Failed to fetch GA4 report"

def detailedReportErrorMessage : String := "Failed to fetch GA4 detailed report"

def getReport (token : Except String String) (post : Except HttpError GA4Response) :
    Except String GA4Response :=
  match token with
  | Except.error _ => Except.error reportErrorMessage
  | Except.ok _ =>
      match post with
      | Except.error _ => Except.error reportErrorMessage
      | Except.ok resp => Except.ok resp

def getDetailedReport (token : Except String String)
    (post : Except HttpError GA4Response) : Except String GA4Response :=
  match token with
  | Except.error _ => Except.error detailedReportErrorMessage
  | Except.ok _ =>
      match post with
      | Except.error _ => Except.error detailedReportErrorMessage
      | Except.ok resp => Except.ok resp

-- getUsersByCountry end to end: await getReport, then normalize; a thrown
-- error propagates to the caller unchanged.
def getUsersByCountryOp (token : Except String String)
    (post : Except HttpError GA4Response) : Except String ReportResult :=
  (getReport token post).map getUsersByCountryResult

/- Constructor (lines 117-126).  path.join(dirname, name) is modelled as
dirname ++ "/" ++ name; the keyFilePath default fires for an absent or
falsy (empty) argument, via the same || pattern as jsOr. -/

def defaultKeyFileName : String := "lynx-460617-4dcaad897518.json"

structure GA4State where
  propertyId : String
  name : String
  keyFilePath : String
  debug : Bool
  serviceAccountObj : Option GoogleServiceAccountKeyInput
  serviceAccountKey : Option MergedKey
deriving DecidableEq

def constructGA4Service (dirname propertyId name : String)
    (keyFilePath : Option String) (debug : Bool)
    (serviceAccountObj : Option GoogleServiceAccountKeyInput) :
    Except String GA4State :=
  if propertyId = "" then
    Except.error ("Google Analytics 4 Property ID is required")
  else
    Except.ok
      { propertyId := propertyId,
        name := name,
        keyFilePath := jsOr keyFilePath (dirname ++ "/" ++ defaultKeyFileName),
        debug := debug,
        serviceAccountObj := serviceAccountObj,
        serviceAccountKey := none }

/- Named spec predicates used by the claim theorems and their witnesses. -/

-- An empty remote response: rows [] or rows absent.
def RowsEmpty (report : GA4Response) : Prop :=
  report.rows = none ∨ report.rows = some []

-- Empty-result contract of every convenience operation.  All operations
-- except compareTodayVsYesterday return empty data plus their specific
-- message; compareTodayVsYesterday always returns the two placeholder rows
-- and no message.
def EmptyRowsSpec (report : GA4Response) : Prop :=
  getUsersByCountryResult report =
    { headers := ["Country", "Total Users", "New Users", "Sessions"],
      data := [], message := some ("No data available") } ∧
  getTopConversionEventsResult report =
    { headers := ["Event Name", "Conversions"],
      data := [], message := some ("No conversion events data available") } ∧
  getConversionsBySourceMediumResult report =
    { headers := ["Source/Medium", "Conversions"],
      data := [], message := some ("No source/medium conversion data available") } ∧
  getConversionsByDeviceResult report =
    { headers := ["Device Category", "Conversions"],
      data := [], message := some ("No device conversion data available") } ∧
  getPopularPagesWithEngagementResult report =
    { headers := ["Page Path", "Page Views", "Engagement Duration (s)"],
      data := [], message := some ("No page engagement data available") } ∧
  getUserJourneyPathsResult report =
    { headers := ["From Page", "To Page", "Page Views"],
      data := [], message := some ("No user journey data available") } ∧
  getTopInteractionEventsResult report =
    { headers := ["Event Name", "Event Count"],
      data := [], message := some ("No interaction events data available") } ∧
  getSessionsByDeviceCategoryResult report =
    { headers := ["Device Category", "Sessions"],
      data := [], message := some ("No device session data available") } ∧
  getSessionsByDefaultChannelGroupResult report =
    { headers := ["Default Channel Group", "Sessions"],
      data := [], message := some ("No channel group data available") } ∧
  compareOrganicVsPaidResult report =
    { headers := ["Medium", "Sessions"],
      data := [], message := some ("No organic vs paid data available") } ∧
  getUsersByCityResult report =
    { headers := ["City", "Active Users"],
      data := [], message := some ("No city data available") } ∧
  getUsersByAgeBracketResult report =
    { headers := ["Age Bracket", "Active Users"],
      data := [], message := some ("No age bracket data available") } ∧
  (∀ dimension : String, compareThisWeekVsLastWeekResult dimension report =
    { headers := [dimension, "Last Week", "This Week"],
      data := [], message := some ("No comparison data available") }) ∧
  (∀ metric : String, compareTodayVsYesterdayResult metric report =
    { headers := ["Period", metric],
      data :=
        [{ country := "Today", totalUsers := "0", newUsers := "0", sessions := "0" },
         { country := "Yesterday", totalUsers := "0", newUsers := "0", sessions := "0" }],
      message := none })

-- Default-fill contract: an absent dimension value maps to 'Unknown' and an
-- absent metric value maps to '0', in every row mapper of every
-- convenience operation.
def DefaultFillSpec (row : GA4Row) : Prop :=
  (dimAt row 0 = none → (getUsersByCountryRow row).country = "Unknown") ∧
  (metAt row 0 = none → (getUsersByCountryRow row).totalUsers = "0") ∧
  (metAt row 1 = none → (getUsersByCountryRow row).newUsers = "0") ∧
  (metAt row 2 = none → (getUsersByCountryRow row).sessions = "0") ∧
  (dimAt row 0 = none → (getTopConversionEventsRow row).country = "Unknown") ∧
  (metAt row 0 = none → (getTopConversionEventsRow row).totalUsers = "0") ∧
  (dimAt row 0 = none → (getConversionsBySourceMediumRow row).country = "Unknown") ∧
  (metAt row 0 = none → (getConversionsBySourceMediumRow row).totalUsers = "0") ∧
  (dimAt row 0 = none → (getConversionsByDeviceRow row).country = "Unknown") ∧
  (metAt row 0 = none → (getConversionsByDeviceRow row).totalUsers = "0") ∧
  (dimAt row 0 = none → (getPopularPagesWithEngagementRow row).country = "Unknown") ∧
  (metAt row 0 = none → (getPopularPagesWithEngagementRow row).totalUsers = "0") ∧
  (metAt row 1 = none → (getPopularPagesWithEngagementRow row).newUsers = "0") ∧
  (dimAt row 0 = none → (getUserJourneyPathsRow row).country = "Unknown") ∧
  (dimAt row 1 = none → (getUserJourneyPathsRow row).totalUsers = "Unknown") ∧
  (metAt row 0 = none → (getUserJourneyPathsRow row).newUsers = "0") ∧
  (dimAt row 0 = none → (getTopInteractionEventsRow row).country = "Unknown") ∧
  (metAt row 0 = none → (getTopInteractionEventsRow row).totalUsers = "0") ∧
  (dimAt row 0 = none → (getSessionsByDeviceCategoryRow row).country = "Unknown") ∧
  (metAt row 0 = none → (getSessionsByDeviceCategoryRow row).totalUsers = "0") ∧
  (dimAt row 0 = none → (getSessionsByDefaultChannelGroupRow row).country = "Unknown") ∧
  (metAt row 0 = none → (getSessionsByDefaultChannelGroupRow row).totalUsers = "0") ∧
  (dimAt row 0 = none → (compareOrganicVsPaidRow row).country = "Unknown") ∧
  (metAt row 0 = none → (compareOrganicVsPaidRow row).totalUsers = "0") ∧
  (dimAt row 0 = none → (getUsersByCityRow row).country = "Unknown") ∧
  (metAt row 0 = none → (getUsersByCityRow row).totalUsers = "0") ∧
  (dimAt row 0 = none → (getUsersByAgeBracketRow row).country = "Unknown") ∧
  (metAt row 0 = none → (getUsersByAgeBracketRow row).totalUsers = "0") ∧
  (dimAt row 0 = none → (compareThisWeekVsLastWeekRow row).country = "Unknown") ∧
  (metAt row 0 = none → (compareThisWeekVsLastWeekRow row).totalUsers = "0") ∧
  (metAt row 1 = none → (compareThisWeekVsLastWeekRow row).newUsers = "0")

-- All four positional fields of a mapped row are non-empty strings.
def NoEmptyFields (r : CountryUserReport) : Prop :=
  r.country ≠ "" ∧ r.totalUsers ≠ "" ∧ r.newUsers ≠ "" ∧ r.sessions ≠ ""

-- Empty-string-fill contract: a present-but-empty value maps to the same
-- default as an absent one ('' is falsy in JavaScript), and no mapper ever
-- emits an empty output field.
def NoEmptyOutputSpec (row : GA4Row) (metric : String) (report : GA4Response) : Prop :=
  NoEmptyFields (getUsersByCountryRow row) ∧
  NoEmptyFields (getTopConversionEventsRow row) ∧
  NoEmptyFields (getConversionsBySourceMediumRow row) ∧
  NoEmptyFields (getConversionsByDeviceRow row) ∧
  NoEmptyFields (getPopularPagesWithEngagementRow row) ∧
  NoEmptyFields (getUserJourneyPathsRow row) ∧
  NoEmptyFields (getTopInteractionEventsRow row) ∧
  NoEmptyFields (getSessionsByDeviceCategoryRow row) ∧
  NoEmptyFields (getSessionsByDefaultChannelGroupRow row) ∧
  NoEmptyFields (compareOrganicVsPaidRow row) ∧
  NoEmptyFields (getUsersByCityRow row) ∧
  NoEmptyFields (getUsersByAgeBracketRow row) ∧
  NoEmptyFields (compareThisWeekVsLastWeekRow row) ∧
  (∀ rec ∈ (compareTodayVsYesterdayResult metric report).data, NoEmptyFields rec) ∧
  (dimAt row 0 = some "" → (getUsersByCountryRow row).country = "Unknown") ∧
  (metAt row 0 = some "" → (getUsersByCountryRow row).totalUsers = "0") ∧
  (metAt row 1 = some "" → (getUsersByCountryRow row).newUsers = "0") ∧
  (metAt row 2 = some "" → (getUsersByCountryRow row).sessions = "0") ∧
  (dimAt row 0 = some "" → (getTopConversionEventsRow row).country = "Unknown") ∧
  (metAt row 0 = some "" → (getTopConversionEventsRow row).totalUsers = "0")

-- The structural contract of the JWT assertion getAccessToken posts.
def JwtAssertionSpec (key : MergedKey) (now : Nat) (sig : List Nat)
    (kid email : String)
    (post : TokenRequest → Except HttpError TokenResponse) : Prop :=
  (getAccessToken (Except.ok key) now (fun _ _ => Except.ok sig) post).2 =
    [{ grant_type := "urn:ietf:params:oauth:grant-type:jwt-bearer",
       assertion := base64url (jsonHeader (some kid)) ++ ['.'] ++
         base64url (jsonClaims (some email) now) ++ ['.'] ++ base64url sig }] ∧
  decodeB64url (base64url (jsonHeader (some kid))) =
    strBytes ("\x7b\"alg\":\"RS256\",\"typ\":\"JWT\"") ++
    (strBytes (",\"kid\":") ++ jsonStr (strBytes kid)) ++ strBytes ("\x7d") ∧
  decodeB64url (base64url (jsonClaims (some email) now)) =
    strBytes ("\x7b") ++
    (strBytes ("\"iss\":") ++ jsonStr (strBytes email) ++
     strBytes (",\"sub\":") ++ jsonStr (strBytes email) ++ strBytes (",")) ++
    strBytes ("\"aud\":\"https://oauth2.googleapis.com/token\",\"iat\":") ++
    natToDec now ++
    strBytes (",\"exp\":") ++ natToDec (now + 3600) ++
    strBytes (",\"scope\":\"https://www.googleapis.com/auth/analytics.readonly\"\x7d") ∧
  decodeB64url (base64url sig) = sig

/- Concrete inputs used by witnesses and counterexamples. -/

def emptyResponse : GA4Response :=
  { rows := none, dimensionHeaders := [], metricHeaders := [] }

def emptyRow : GA4Row := { dimensionValues := [], metricValues := [] }

def blankRow : GA4Row :=
  { dimensionValues := [{ value := some ("") }],
    metricValues := [{ value := some ("") }] }

def customRaw : RawKey :=
  { type := none, project_id := none, private_key_id := none,
    private_key := none, client_email := none, client_id := none,
    auth_uri := none, token_uri := some ("https://custom.example/token"),
    auth_provider_x509_cert_url := none, client_x509_cert_url := none,
    universe_domain := none }

def sampleKey : MergedKey :=
  { type := "service_account",
    auth_uri := "https://accounts.google.com/o/oauth2/auth",
    auth_provider_x509_cert_url := "https://www.googleapis.com/oauth2/v1/certs",
    token_uri := "https://oauth2.googleapis.com/token",
    universe_domain := "googleapis.com",
    project_id := some ("lynx-460617"),
    private_key_id := some ("4dcaad897518"),
    private_key := some ("PEM"),
    client_email := some ("ga4-124@lynx-460617.iam.gserviceaccount.com"),
    client_id := some ("117680020391704302024"),
    client_x509_cert_url := some ("https://www.googleapis.com/robot/v1/metadata/x509") }

def sampleSign : MergedKey → List Char → Except String (List Nat) :=
  fun _ _ => Except.ok [1, 2, 3]

def samplePost401 : TokenRequest → Except HttpError TokenResponse :=
  fun _ => Except.error { status := 401 }

def scenarioResponse : GA4Response :=
  { rows := some
      [{ dimensionValues := [{ value := some ("US") }],
         metricValues :=
           [{ value := some ("120") }, { value := some ("80") },
            { value := some ("200") }] }],
    dimensionHeaders := [{ name := "country" }],
    metricHeaders :=
      [{ name := "totalUsers" }, { name := "newUsers" }, { name := "sessions" }] }

theorem jsOr_ne_empty (o : Option String) (d : String) (hd : d ≠ "") : jsOr o d ≠ "" := by
  cases o with
  | none => exact hd
  | some s =>
      by_cases hs : s = ""
      · simpa [jsOr, hs] using hd
      · simp [jsOr, hs]

theorem noEmptyFields_mk (c t n s : String)
    (hc : c ≠ "") (ht : t ≠ "") (hn : n ≠ "") (hs : s ≠ "") :
    NoEmptyFields { country := c, totalUsers := t, newUsers := n, sessions := s } :=
  ⟨hc, ht, hn, hs⟩

theorem jsOr_some_empty (d : String) : jsOr (some ("")) d = d := by
  simp [jsOr]

/-- Claim C1, counterexample: a credential file carrying its own token_uri
keeps the file's value after the merge, because the object spread of the
loaded object comes after the fixed constants, so the constant does not
overwrite it. -/
theorem load_custom_token_uri_kept :
    loadServiceAccountKey none (Except.ok customRaw) = Except.ok (mergeFromRaw customRaw) ∧
    (mergeFromRaw customRaw).token_uri = "https://custom.example/token" ∧
    (mergeFromRaw customRaw).token_uri ≠ "https://oauth2.googleapis.com/token" :=
  ⟨rfl, rfl, by decide⟩

/-- Claim C1 (amended): the five fixed OAuth/GCP fields are merged as
defaults, not as overrides — for a file-loaded credential each fixed field
equals the file's value when present and the fixed constant only when the
field is absent; for the in-memory object path, whose input type carries
none of the five fields, the merged credential always holds the constants,
and the in-memory object takes precedence over the file. -/
theorem fixed_fields_are_defaults :
    ∀ (raw : RawKey) (obj : GoogleServiceAccountKeyInput) (file : Except String RawKey),
      (mergeFromRaw raw).type = raw.type.getD ("service_account") ∧
      (mergeFromRaw raw).auth_uri =
        raw.auth_uri.getD ("https://accounts.google.com/o/oauth2/auth") ∧
      (mergeFromRaw raw).auth_provider_x509_cert_url =
        raw.auth_provider_x509_cert_url.getD ("https://www.googleapis.com/oauth2/v1/certs") ∧
      (mergeFromRaw raw).token_uri =
        raw.token_uri.getD ("https://oauth2.googleapis.com/token") ∧
      (mergeFromRaw raw).universe_domain = raw.universe_domain.getD ("googleapis.com") ∧
      (mergeFromObj obj).type = "service_account" ∧
      (mergeFromObj obj).auth_uri = "https://accounts.google.com/o/oauth2/auth" ∧
      (mergeFromObj obj).auth_provider_x509_cert_url =
        "https://www.googleapis.com/oauth2/v1/certs" ∧
      (mergeFromObj obj).token_uri = "https://oauth2.googleapis.com/token" ∧
      (mergeFromObj obj).universe_domain = "googleapis.com" ∧
      loadServiceAccountKey (some obj) file = Except.ok (mergeFromObj obj) :=
  fun _ _ _ => ⟨rfl, rfl, rfl, rfl, rfl, rfl, rfl, rfl, rfl, rfl, rfl⟩

/-- Claim C2, counterexample: on an empty remote response,
compareTodayVsYesterday does not return empty data with a message; it
returns the two placeholder rows and no message at all. -/
theorem compareTodayVsYesterday_empty_has_rows :
    (compareTodayVsYesterdayResult ("sessions") emptyResponse).data ≠ [] ∧
    (compareTodayVsYesterdayResult ("sessions") emptyResponse).message = none :=
  ⟨by decide, rfl⟩

/-- Claim C2 (amended): for a remote response with rows [] or without rows,
every convenience operation except compareTodayVsYesterday returns data []
together with its non-empty operation-specific message, while
compareTodayVsYesterday returns the two placeholder rows Today/Yesterday
with value '0' and no message. -/
theorem convenience_empty_rows (report : GA4Response) (h : RowsEmpty report) :
    EmptyRowsSpec report := by
  unfold EmptyRowsSpec
  rcases h with h | h <;>
    refine ⟨?_, ?_, ?_, ?_, ?_, ?_, ?_, ?_, ?_, ?_, ?_, ?_, ?_, ?_⟩ <;>
    simp [getUsersByCountryResult, getTopConversionEventsResult,
      getConversionsBySourceMediumResult, getConversionsByDeviceResult,
      getPopularPagesWithEngagementResult, getUserJourneyPathsResult,
      getTopInteractionEventsResult, getSessionsByDeviceCategoryResult,
      getSessionsByDefaultChannelGroupResult, compareOrganicVsPaidResult,
      getUsersByCityResult, getUsersByAgeBracketResult,
      compareThisWeekVsLastWeekResult, compareTodayVsYesterdayResult,
      firstRowMetric, jsOr, h]

/-- Claim C2 witness: the contract evaluated at a concrete response whose
rows field is absent. -/
theorem convenience_empty_rows_witness :
    RowsEmpty emptyResponse ∧ EmptyRowsSpec emptyResponse :=
  ⟨Or.inl rfl, convenience_empty_rows emptyResponse (Or.inl rfl)⟩

/-- Claim C5: the literal single-row scenario for getUsersByCountry. -/
theorem getUsersByCountry_scenario :
    getUsersByCountryResult scenarioResponse =
      { headers := ["Country", "Total Users", "New Users", "Sessions"],
        data := [{ country := "US", totalUsers := "120",
                   newUsers := "80", sessions := "200" }],
        message := none } := by
  rfl

/-- Claim C6: in every convenience row mapper an absent dimension value
(missing entry or missing value field) yields 'Unknown' and an absent
metric value yields '0'; the mappers are total functions, so mapping never
fails on an absent value. -/
theorem default_fill (row : GA4Row) : DefaultFillSpec row := by
  unfold DefaultFillSpec
  repeat' apply And.intro
  all_goals intro h
  all_goals
    simp [getUsersByCountryRow, getTopConversionEventsRow,
      getConversionsBySourceMediumRow, getConversionsByDeviceRow,
      getPopularPagesWithEngagementRow, getUserJourneyPathsRow,
      getTopInteractionEventsRow, getSessionsByDeviceCategoryRow,
      getSessionsByDefaultChannelGroupRow, compareOrganicVsPaidRow,
      getUsersByCityRow, getUsersByAgeBracketRow, compareThisWeekVsLastWeekRow,
      jsOr, h]

/-- Claim C6 witness: the default-fill contract evaluated at a row with no
dimension and no metric entries at all. -/
theorem default_fill_witness :
    dimAt emptyRow 0 = none ∧ dimAt emptyRow 1 = none ∧ metAt emptyRow 0 = none ∧
    metAt emptyRow 1 = none ∧ metAt emptyRow 2 = none ∧ DefaultFillSpec emptyRow :=
  ⟨rfl, rfl, rfl, rfl, rfl, default_fill emptyRow⟩

/-- Claim C9: constructing with an empty propertyId throws, and any
non-empty propertyId is stored together with name, debug flag, credential
object and key-file path, the path defaulting to the toolkit-conventional
file next to the module when none (or an empty one) is supplied. -/
theorem ga4service_constructor_spec :
    (∀ (dirname name : String) (kfp : Option String) (debug : Bool)
       (obj : Option GoogleServiceAccountKeyInput),
       constructGA4Service dirname ("") name kfp debug obj =
         Except.error ("Google Analytics 4 Property ID is required")) ∧
    (∀ (dirname pid name : String) (kfp : Option String) (debug : Bool)
       (obj : Option GoogleServiceAccountKeyInput), pid ≠ "" →
       constructGA4Service dirname pid name kfp debug obj =
         Except.ok
           { propertyId := pid, name := name,
             keyFilePath := jsOr kfp (dirname ++ "/" ++ defaultKeyFileName),
             debug := debug, serviceAccountObj := obj, serviceAccountKey := none }) ∧
    (∀ (dirname pid name : String) (debug : Bool)
       (obj : Option GoogleServiceAccountKeyInput), pid ≠ "" →
       constructGA4Service dirname pid name none debug obj =
         Except.ok
           { propertyId := pid, name := name,
             keyFilePath := dirname ++ "/" ++ defaultKeyFileName,
             debug := debug, serviceAccountObj := obj, serviceAccountKey := none }) ∧
    (∀ (dirname pid name p : String) (debug : Bool)
       (obj : Option GoogleServiceAccountKeyInput), pid ≠ "" → p ≠ "" →
       constructGA4Service dirname pid name (some p) debug obj =
         Except.ok
           { propertyId := pid, name := name, keyFilePath := p,
             debug := debug, serviceAccountObj := obj, serviceAccountKey := none }) := by
  refine ⟨?_, ?_, ?_, ?_⟩
  · intro dirname name kfp debug obj
    simp [constructGA4Service]
  · intro dirname pid name kfp debug obj h
    simp [constructGA4Service, h]
  · intro dirname pid name debug obj h
    simp [constructGA4Service, h, jsOr]
  · intro dirname pid name p debug obj h hp
    simp [constructGA4Service, h, jsOr, hp]

/-- Claim C9 witness: construction at a concrete non-empty property id with
no key-file path supplied. -/
theorem ga4service_constructor_witness :
    ("489280622" : String) ≠ "" ∧
    constructGA4Service ("/app") ("489280622") ("GA4Service") none false none =
      Except.ok
        { propertyId := "489280622", name := "GA4Service",
          keyFilePath := "/app" ++ "/" ++ defaultKeyFileName,
          debug := false, serviceAccountObj := none, serviceAccountKey := none } :=
  ⟨by decide, ga4service_constructor_spec.2.2.1 _ _ _ _ _ (by decide)⟩

/-- Claim C10: a present-but-empty dimension or metric value is replaced by
the same default as an absent one, and no output field of any mapped data
row is ever the empty string. -/
theorem no_empty_output (row : GA4Row) (metric : String) (report : GA4Response) :
    NoEmptyOutputSpec row metric report := by
  have h14 : ∀ rec ∈ (compareTodayVsYesterdayResult metric report).data,
      NoEmptyFields rec := by
    intro rec hrec
    simp only [compareTodayVsYesterdayResult, List.mem_cons,
      List.not_mem_nil, or_false] at hrec
    rcases hrec with rfl | rfl <;>
      exact noEmptyFields_mk _ _ _ _ (by decide)
        (jsOr_ne_empty _ _ (by decide)) (by decide) (by decide)
  unfold NoEmptyOutputSpec
  refine ⟨?_, ?_, ?_, ?_, ?_, ?_, ?_, ?_, ?_, ?_, ?_, ?_, ?_, h14,
    ?_, ?_, ?_, ?_, ?_, ?_⟩
  all_goals
    first
      | (intro h
         simp [getUsersByCountryRow, getTopConversionEventsRow, jsOr, h])
      | (refine ⟨?_, ?_, ?_, ?_⟩ <;>
         simp only [getUsersByCountryRow, getTopConversionEventsRow,
           getConversionsBySourceMediumRow, getConversionsByDeviceRow,
           getPopularPagesWithEngagementRow, getUserJourneyPathsRow,
           getTopInteractionEventsRow, getSessionsByDeviceCategoryRow,
           getSessionsByDefaultChannelGroupRow, compareOrganicVsPaidRow,
           getUsersByCityRow, getUsersByAgeBracketRow,
           compareThisWeekVsLastWeekRow] <;>
         first
           | exact jsOr_ne_empty _ _ (by decide)
           | decide)

/-- Claim C10 witness: the contract evaluated at a row whose first
dimension and metric values are present but empty. -/
theorem no_empty_output_witness :
    dimAt blankRow 0 = some ("") ∧ metAt blankRow 0 = some ("") ∧
    NoEmptyOutputSpec blankRow ("sessions") emptyResponse :=
  ⟨rfl, rfl, no_empty_output blankRow ("sessions") emptyResponse⟩

/-- Claim C7: whenever any step of token issuance fails — credential load
failure, signing failure, or a token-endpoint error such as HTTP 401 —
getAccessToken rejects with the single TokenIssuanceError message and never
returns an access token string; the trace shows at most one POST to the
token endpoint, so no retry is attempted internally, and a token is
returned only when every step succeeded. -/
theorem getAccessToken_failure_contract
    (load : Except String MergedKey) (now : Nat)
    (sign : MergedKey → List Char → Except String (List Nat))
    (post : TokenRequest → Except HttpError TokenResponse) :
    (getAccessToken load now sign post).2.length ≤ 1 ∧
    (∀ e : String, load = Except.error e →
      (getAccessToken load now sign post).1 = Except.error tokenErrorMessage) ∧
    (∀ (key : MergedKey) (e : String), load = Except.ok key →
      sign key (signingInputFor key now) = Except.error e →
      (getAccessToken load now sign post).1 = Except.error tokenErrorMessage) ∧
    (∀ (key : MergedKey) (sig : List Nat) (err : HttpError), load = Except.ok key →
      sign key (signingInputFor key now) = Except.ok sig →
      post (tokenRequestFor key now sig) = Except.error err →
      (getAccessToken load now sign post).1 = Except.error tokenErrorMessage) ∧
    (∀ t : String, (getAccessToken load now sign post).1 = Except.ok t →
      ∃ (key : MergedKey) (sig : List Nat) (resp : TokenResponse),
        load = Except.ok key ∧ sign key (signingInputFor key now) = Except.ok sig ∧
        post (tokenRequestFor key now sig) = Except.ok resp ∧
        t = resp.access_token) := by
  refine ⟨?_, ?_, ?_, ?_, ?_⟩
  · cases load with
    | error e => simp [getAccessToken]
    | ok key =>
        cases hs : sign key (signingInputFor key now) with
        | error e => simp [getAccessToken, hs]
        | ok sig =>
            cases hp : post (tokenRequestFor key now sig) with
            | error err => simp [getAccessToken, hs, hp]
            | ok resp => simp [getAccessToken, hs, hp]
  · intro e he
    subst he
    simp [getAccessToken]
  · intro key e hl hs
    subst hl
    simp [getAccessToken, hs]
  · intro key sig err hl hs hp
    subst hl
    simp [getAccessToken, hs, hp]
  · intro t ht
    cases load with
    | error e => simp [getAccessToken] at ht
    | ok key =>
        cases hs : sign key (signingInputFor key now) with
        | error e => simp [getAccessToken, hs] at ht
        | ok sig =>
            cases hp : post (tokenRequestFor key now sig) with
            | error err => simp [getAccessToken, hs, hp] at ht
            | ok resp =>
                simp [getAccessToken, hs, hp] at ht
                exact ⟨key, sig, resp, rfl, hs, hp, ht.symm⟩

/-- Claim C7 witness: a concrete run in which signing succeeds and the
token endpoint answers HTTP 401, so getAccessToken rejects with the
TokenIssuanceError message. -/
theorem getAccessToken_failure_witness :
    sampleSign sampleKey (signingInputFor sampleKey 1700000000) =
      Except.ok [1, 2, 3] ∧
    samplePost401 (tokenRequestFor sampleKey 1700000000 [1, 2, 3]) =
      Except.error { status := 401 } ∧
    (getAccessToken (Except.ok sampleKey) 1700000000 sampleSign samplePost401).1 =
      Except.error tokenErrorMessage :=
  ⟨rfl, rfl,
    (getAccessToken_failure_contract (Except.ok sampleKey) 1700000000 sampleSign
        samplePost401).2.2.2.1 sampleKey [1, 2, 3] { status := 401 } rfl rfl rfl⟩

/-- Claim C8, counterexample: on an HTTP 403 failure getDetailedReport (the
path every convenience operation except getUsersByCountry goes through)
throws the message of its own catch block, which differs from the single
message the claim names. -/
theorem detailed_report_error_message_differs :
    getDetailedReport (Except.ok ("tok")) (Except.error { status := 403 }) =
      Except.error ("Failed to fetch GA4 detailed report") ∧
    detailedReportErrorMessage ≠ reportErrorMessage :=
  ⟨rfl, by decide⟩

/-- Claim C8 (amended): for every HTTP status the failing report call
throws a single generic message independent of the status — getReport
throws 'Failed to fetch GA4 report' and getDetailedReport throws 'Failed
to fetch GA4 detailed report' — the status classification being log-only;
and a call never returns a partially-valid result: it either throws or
returns a well-formed ReportResult whose data/message fields agree. -/
theorem report_error_contract :
    (∀ (tok : String) (st : Nat),
       getReport (Except.ok tok) (Except.error { status := st }) =
         Except.error reportErrorMessage) ∧
    (∀ (e : String) (post : Except HttpError GA4Response),
       getReport (Except.error e) post = Except.error reportErrorMessage) ∧
    (∀ (tok : String) (st : Nat),
       getDetailedReport (Except.ok tok) (Except.error { status := st }) =
         Except.error detailedReportErrorMessage) ∧
    (∀ (e : String) (post : Except HttpError GA4Response),
       getDetailedReport (Except.error e) post =
         Except.error detailedReportErrorMessage) ∧
    (∀ (token : Except String String) (post : Except HttpError GA4Response),
       (∃ e, getUsersByCountryOp token post = Except.error e) ∨
       (∃ r, getUsersByCountryOp token post = Except.ok r ∧
          r.headers = ["Country", "Total Users", "New Users", "Sessions"] ∧
          (r.data = [] → r.message = some ("No data available")) ∧
          (r.message = none → r.data ≠ []))) := by
  refine ⟨?_, ?_, ?_, ?_, ?_⟩
  · intro tok st; rfl
  · intro e post; rfl
  · intro tok st; rfl
  · intro e post; rfl
  · intro token post
    cases token with
    | error e => exact Or.inl ⟨reportErrorMessage, rfl⟩
    | ok tok =>
        cases post with
        | error err => exact Or.inl ⟨reportErrorMessage, rfl⟩
        | ok resp =>
            rcases resp with ⟨rows, dh, mh⟩
            cases rows with
            | none =>
                refine Or.inr ⟨_, rfl, rfl, fun _ => rfl, fun hmsg => ?_⟩
                simp [getUsersByCountryResult] at hmsg
            | some rs =>
                cases rs with
                | nil =>
                    refine Or.inr ⟨_, rfl, rfl, fun _ => rfl, fun hmsg => ?_⟩
                    simp [getUsersByCountryResult] at hmsg
                | cons r rs =>
                    refine Or.inr ⟨_, rfl, rfl, fun hdata => ?_, fun _ => ?_⟩
                    · simp [getUsersByCountryResult] at hdata
                    · simp [getUsersByCountryResult]

/-- Claim C3: the base64url encoding used for the JWT header, claims and
signature contains no '+', no '/' and no '=' at all (hence no trailing
'='), and decoding the encoded form — reversing the substitutions and
re-padding — yields the original bytes. -/
theorem base64url_spec (bs : List Nat) (h : ByteOk bs) :
    UrlCharsOk (base64url bs) ∧ decodeB64url (base64url bs) = bs :=
  ⟨base64url_urlCharsOk bs h, base64url_roundTrip bs h⟩

/-- Claim C3 witness: the property evaluated at the bytes [255, 255], whose
plain base64 encoding contains both '/' and a trailing '='. -/
theorem base64url_spec_witness :
    ByteOk [255, 255] ∧
    (UrlCharsOk (base64url [255, 255]) ∧
     decodeB64url (base64url [255, 255]) = [255, 255]) :=
  ⟨by decide, base64url_spec [255, 255] (by decide)⟩

theorem byteOk_jsonHeader_some (k : String) (hk : AsciiStr k) :
    ByteOk (jsonHeader (some k)) := by
  simp only [jsonHeader]
  repeat' apply byteOk_append
  all_goals
    first
      | exact byteOk_jsonStr (byteOk_strBytes hk)
      | exact byteOk_strBytes (by decide)

theorem byteOk_jsonClaims_some (e : String) (iat : Nat) (he : AsciiStr e) :
    ByteOk (jsonClaims (some e) iat) := by
  simp only [jsonClaims]
  repeat' apply byteOk_append
  all_goals
    first
      | exact byteOk_natToDec _
      | exact byteOk_jsonStr (byteOk_strBytes he)
      | exact byteOk_strBytes (by decide)

/-- Claim C4: for every credential with a private_key_id and client_email
and every clock time, the assertion getAccessToken posts is
encodedHeader . encodedClaims . encodedSignature, where decoding the first
part yields exactly the JSON header with alg RS256, typ JWT and kid equal
to the private_key_id, decoding the second yields exactly the claims with
iss = sub = client_email, the fixed aud and scope, iat = now and
exp = now + 3600, and decoding the third yields the signature bytes. -/
theorem getAccessToken_jwt_assertion
    (key : MergedKey) (now : Nat) (sig : List Nat) (kid email : String)
    (post : TokenRequest → Except HttpError TokenResponse)
    (hkid : key.private_key_id = some kid) (hemail : key.client_email = some email)
    (hk : AsciiStr kid) (he : AsciiStr email) (hs : ByteOk sig) :
    JwtAssertionSpec key now sig kid email post := by
  unfold JwtAssertionSpec
  refine ⟨?_, ?_, ?_, ?_⟩
  · simp only [getAccessToken]
    cases post (tokenRequestFor key now sig) with
    | error err => simp [tokenRequestFor, signingInputFor, hkid, hemail]
    | ok resp => simp [tokenRequestFor, signingInputFor, hkid, hemail]
  · rw [base64url_roundTrip _ (byteOk_jsonHeader_some kid hk)]
    simp [jsonHeader]
  · rw [base64url_roundTrip _ (byteOk_jsonClaims_some email now he)]
    simp [jsonClaims]
  · exact base64url_roundTrip sig hs

/-- Claim C4 witness: the assertion contract evaluated for a concrete
credential, clock time and signature. -/
theorem getAccessToken_jwt_assertion_witness :
    sampleKey.private_key_id = some ("4dcaad897518") ∧
    sampleKey.client_email = some ("ga4-124@lynx-460617.iam.gserviceaccount.com") ∧
    AsciiStr ("4dcaad897518") ∧
    AsciiStr ("ga4-124@lynx-460617.iam.gserviceaccount.com") ∧
    ByteOk [0, 255, 16] ∧
    JwtAssertionSpec sampleKey 1700000000 [0, 255, 16] ("4dcaad897518")
      ("ga4-124@lynx-460617.iam.gserviceaccount.com") samplePost401 :=
  ⟨rfl, rfl, by decide, by decide, by decide,
    getAccessToken_jwt_assertion sampleKey 1700000000 [0, 255, 16] _ _ samplePost401
      rfl rfl (by decide) (by decide) (by decide)⟩

def sampleObj : GoogleServiceAccountKeyInput :=
  { project_id := "lynx-460617",
    private_key_id := "4dcaad897518",
    private_key := "PEM",
    client_email := "ga4-124@lynx-460617.iam.gserviceaccount.com",
    client_id := "117680020391704302024",
    client_x509_cert_url := "https://www.googleapis.com/robot/v1/metadata/x509" }

/-- Claim C1 witness: the default-merging contract evaluated at the
concrete file object carrying a custom token_uri and at a concrete
in-memory credential object. -/
theorem fixed_fields_are_defaults_witness :
    (mergeFromRaw customRaw).token_uri =
      (customRaw.token_uri).getD ("https://oauth2.googleapis.com/token") ∧
    (mergeFromObj sampleObj).token_uri = "https://oauth2.googleapis.com/token" :=
  ⟨(fixed_fields_are_defaults customRaw sampleObj (Except.error ("e"))).2.2.2.1,
   (fixed_fields_are_defaults customRaw sampleObj
      (Except.error ("e"))).2.2.2.2.2.2.2.2.1⟩

/-- Claim C8 witness: the generic report errors evaluated at concrete
failing calls with statuses 403 and 401. -/
theorem report_error_contract_witness :
    getReport (Except.ok ("tok")) (Except.error { status := 403 }) =
      Except.error reportErrorMessage ∧
    getDetailedReport (Except.ok ("tok")) (Except.error { status := 401 }) =
      Except.error detailedReportErrorMessage :=
  ⟨report_error_contract.1 ("tok") 403, report_error_contract.2.2.1 ("tok") 401⟩
